import Mathlib

/-!
# Verification of the btcp-cowork browser tool-calling core

A shallow embedding of the BTCP browser plugin
(`packages/aiCore/src/core/plugins/built-in/btcpBrowserPlugin`), the
extension content-script executor (`src/extension/content.ts`) and the
background router (`src/extension/background.ts`), with theorems checking
the specification's claims about truncation, id correlation, error
surfacing, preset monotonicity, tool filtering, tool merging, and lazy
agent launch.
-/

namespace BTCP

/-! ## JSON values and serialization

`Json` models JavaScript values as they appear on the wire; `serialize`
models `JSON.stringify` (string escaping is not modelled: the claims
compare serialized lengths, and every input used below is escape-free).
-/

inductive Json : Type where
  | null : Json
  | bool : Bool → Json
  | num : Int → Json
  | str : String → Json
  | arr : List Json → Json
  | obj : List (String × Json) → Json

mutual

/-- `JSON.stringify` on a `Json` value (no escaping). -/
def serialize : Json → String
  | .null => "null"
  | .bool true => "true"
  | .bool false => "false"
  | .num n => toString n
  | .str s => "\"" ++ s ++ "\""
  | .arr xs => "[" ++ serializeElems xs ++ "]"
  | .obj fs => "\x7b" ++ serializeFields fs ++ "\x7d"

/-- Comma-separated serialization of array elements. -/
def serializeElems : List Json → String
  | [] => ""
  | [x] => serialize x
  | x :: y :: xs => serialize x ++ "," ++ serializeElems (y :: xs)

/-- Comma-separated serialization of object fields. -/
def serializeFields : List (String × Json) → String
  | [] => ""
  | [(k, v)] => "\"" ++ k ++ "\":" ++ serialize v
  | (k, v) :: f :: fs => "\"" ++ k ++ "\":" ++ serialize v ++ "," ++ serializeFields (f :: fs)

end

/-- One assignment in a JavaScript object literal: `{ ...fs, k: v }` keeps
the key's position and overrides its value if present, else appends (JS
records have unique keys, so overriding the first hit is exact). -/
def objSet : List (String × Json) → String → Json → List (String × Json)
  | [], k, v => [(k, v)]
  | p :: fs, k, v => if p.1 == k then (k, v) :: fs else p :: objSet fs k v

/-- Key lookup in an object (first match; JS records have unique keys). -/
def objGet : List (String × Json) → String → Option Json
  | [], _ => none
  | p :: fs, k => if p.1 == k then some p.2 else objGet fs k

/-- Whether an object carries a key at all. -/
def objHas : List (String × Json) → String → Bool
  | [], _ => false
  | p :: fs, k => p.1 == k || objHas fs k

/-! ## browser_snapshot truncation handling

`btcpBrowserPlugin/index.ts`, `browser_snapshot.execute`: the snapshot
returned by the agent is stringified; if its length exceeds
`maxSnapshotSize` the tool returns `{ ...snapshot, _truncated: true,
_message: "Snapshot truncated to <max> chars" }`, otherwise the snapshot
unchanged. -/
def browser_snapshot_result (snapshot : List (String × Json)) (maxSnapshotSize : Nat) :
    List (String × Json) :=
  let snapshotStr := serialize (.obj snapshot)
  if snapshotStr.length > maxSnapshotSize then
    objSet (objSet snapshot "_truncated" (.bool true)) "_message"
      (.str ("Snapshot truncated to " ++ toString maxSnapshotSize ++ " chars"))
  else
    snapshot

/-! ## Tool presets (`btcpBrowserPlugin/constants.ts`, `TOOL_PRESETS`) -/

/-- `TOOL_PRESETS.minimal`: safe read-only operations. -/
def TOOL_PRESETS_minimal : List String :=
  ["browser_snapshot", "browser_url", "browser_title", "browser_get_text",
   "browser_get_attribute", "browser_is_visible", "browser_count", "browser_describe"]

/-- `TOOL_PRESETS.standard`: common automation tasks. -/
def TOOL_PRESETS_standard : List String :=
  ["browser_snapshot", "browser_url", "browser_title", "browser_get_text",
   "browser_get_attribute", "browser_is_visible", "browser_count", "browser_describe",
   "browser_navigate", "browser_back", "browser_forward", "browser_reload",
   "browser_click", "browser_type", "browser_fill", "browser_press", "browser_hover",
   "browser_scroll", "browser_clear", "browser_check", "browser_select",
   "browser_get_by_role", "browser_get_by_text", "browser_get_by_label",
   "browser_wait", "browser_scroll_into_view", "browser_screenshot", "browser_highlight"]

/-- `TOOL_PRESETS.full`: all capabilities including JS execution. -/
def TOOL_PRESETS_full : List String :=
  ["browser_snapshot", "browser_url", "browser_title", "browser_get_text",
   "browser_get_attribute", "browser_is_visible", "browser_count", "browser_describe",
   "browser_navigate", "browser_back", "browser_forward", "browser_reload",
   "browser_click", "browser_type", "browser_fill", "browser_press", "browser_hover",
   "browser_scroll", "browser_clear", "browser_check", "browser_select",
   "browser_get_by_role", "browser_get_by_text", "browser_get_by_label",
   "browser_wait", "browser_scroll_into_view", "browser_screenshot", "browser_highlight",
   "browser_evaluate", "browser_frame", "browser_mainframe", "browser_uncheck",
   "browser_get_by_placeholder", "browser_is_enabled", "browser_wait_for_url",
   "browser_console"]

/-- The `TOOL_PRESETS` record as a lookup: `TOOL_PRESETS[name]` is `undefined`
(`none`) for names other than the three presets. -/
def TOOL_PRESETS (name : String) : Option (List String) :=
  if name = "minimal" then some TOOL_PRESETS_minimal
  else if name = "standard" then some TOOL_PRESETS_standard
  else if name = "full" then some TOOL_PRESETS_full
  else none

/-! ## Tool registry and filtering (`btcpBrowserPlugin/index.ts`) -/

/-- The `toolset` configuration: either a preset name or an explicit list of
tool names (`BTCPBrowserPluginConfig.toolset`). -/
inductive ToolSelector : Type where
  | preset : String → ToolSelector
  | list : List String → ToolSelector

/-- `filterTools` from `index.ts`: an explicit array keeps exactly the entries
whose name the array contains; a preset name looks up `TOOL_PRESETS[name]`,
falling back to `TOOL_PRESETS.standard`, and keeps the entries the preset
contains. Polymorphic in the tool value, as the source is in `unknown`. -/
def filterTools {α : Type} (toolset : ToolSelector) (allTools : List (String × α)) :
    List (String × α) :=
  match toolset with
  | .list names => allTools.filter (fun p => names.contains p.1)
  | .preset name =>
    let preset := (TOOL_PRESETS name).getD TOOL_PRESETS_standard
    allTools.filter (fun p => preset.contains p.1)

/-- A tool value: either one of the plugin's browser tools or a tool already
present in the caller's request parameters. -/
inductive ToolVal : Type where
  | btcp : String → ToolVal
  | ext : Nat → ToolVal
deriving DecidableEq

/-- The record returned by `createBrowserTools` in `index.ts`, reduced to its
keys in definition order (the tool closures themselves live outside the
embedding; each is tagged with its own name). -/
def browserToolNames : List String :=
  ["browser_navigate", "browser_back", "browser_forward", "browser_reload",
   "browser_url", "browser_title", "browser_snapshot", "browser_get_text",
   "browser_get_attribute", "browser_is_visible", "browser_is_enabled",
   "browser_count", "browser_get_by_role", "browser_get_by_text",
   "browser_get_by_label", "browser_get_by_placeholder", "browser_click",
   "browser_type", "browser_fill", "browser_clear", "browser_press",
   "browser_hover", "browser_check", "browser_uncheck", "browser_select",
   "browser_scroll", "browser_scroll_into_view", "browser_wait",
   "browser_wait_for_url", "browser_screenshot", "browser_highlight",
   "browser_frame", "browser_mainframe", "browser_evaluate", "browser_console",
   "browser_describe"]

/-- `createBrowserTools()` as an association list. -/
def createBrowserTools : List (String × ToolVal) :=
  browserToolNames.map (fun n => (n, .btcp n))

/-- Value lookup in a record (first match; JS records have unique keys). -/
def lookupVal {α : Type} : List (String × α) → String → Option α
  | [], _ => none
  | p :: fs, k => if p.1 == k then some p.2 else lookupVal fs k

/-- JS object spread `{ ...base, ...extra }` on key-unique records: base keys
keep their position, values overridden by `extra` where keys collide; keys
only in `extra` are appended in `extra`'s order. -/
def spreadMerge {α : Type} (base extra : List (String × α)) : List (String × α) :=
  base.map (fun p =>
    match lookupVal extra p.1 with
    | some v => (p.1, v)
    | none => p)
  ++ extra.filter (fun q => !(base.any (fun p => p.1 == q.1)))

/-! ## The plugin's `transformParams` (`btcpBrowserPlugin/index.ts`) -/

/-- `BROWSER_SYSTEM_PROMPT` from `constants.ts` (trimmed template literal). -/
def BROWSER_SYSTEM_PROMPT : String :=
  "You have access to browser automation tools using the Browser Tool Calling Protocol (BTCP).\n\n## Workflow\n1. Call browser_snapshot FIRST to get the page structure with element references (@ref:N)\n2. Use @ref:N references for reliable element targeting (more stable than CSS selectors)\n3. For forms, prefer semantic locators: browser_get_by_role, browser_get_by_label, browser_get_by_text\n4. After actions that change the page, call browser_snapshot again\n5. Use browser_describe to get help on any action\n\n## Element References\nSnapshots return refs like @ref:5, @ref:12 that remain stable across actions.\nUse these refs instead of CSS selectors when possible.\n\n## Tips\n- Use browser_fill for instant input, browser_type for character-by-character\n- Use browser_wait if page needs time to load after action\n- Use browser_highlight for visual debugging"

/-- JS `String.prototype.includes` for a non-empty search string. -/
def jsIncludes (s sub : String) : Bool :=
  (s.splitOn sub).length != 1

/-- The request parameters the plugin touches: the `tools` record and the
`system` prompt (absent fields are `none`). -/
structure PluginParams : Type where
  tools : List (String × ToolVal)
  system : Option String

/-- The configuration fields of `BTCPBrowserPluginConfig` that
`transformParams` and `getAgent` read. -/
structure PluginConfig : Type where
  enabled : Bool
  toolset : ToolSelector
  maxSnapshotSize : Nat
  injectSystemPrompt : Bool

/-- `DEFAULT_CONFIG` from `constants.ts` (the fields modelled here). -/
def DEFAULT_CONFIG : PluginConfig :=
  { enabled := true, toolset := .preset "standard", maxSnapshotSize := 50000,
    injectSystemPrompt := true }

/-- The plugin's `transformParams` stage: when enabled, merges the selected
browser tools over the existing `params.tools` via object spread and
optionally injects the browser system prompt. -/
def transformParams (cfg : PluginConfig) (params : PluginParams) : PluginParams :=
  if !cfg.enabled then params
  else
    let selectedTools := filterTools cfg.toolset createBrowserTools
    let existingTools := params.tools
    let tools := spreadMerge existingTools selectedTools
    let system :=
      if cfg.injectSystemPrompt then
        match params.system with
        | some s =>
          if jsIncludes s "browser_snapshot" then some s
          else some (s ++ "\n\n" ++ BROWSER_SYSTEM_PROMPT)
        | none => some BROWSER_SYSTEM_PROMPT
      else params.system
    { tools := tools, system := system }

/-! ## Wire protocol (`Command` / `Response`) -/

/-- A BTCP Command: the correlation `id`, the `action`, and the
action-specific fields. -/
structure Command : Type where
  id : String
  action : String
  fields : List (String × Json)

/-- A BTCP Response. `id` is `Option` because some failure paths in the
source build object literals without an `id` property. -/
structure Response : Type where
  id : Option String
  success : Bool
  data : Option Json
  error : Option String

/-- A JavaScript value as it can be thrown or rejected with. -/
inductive JsVal : Type where
  | str : String → JsVal
  | errObj : String → String → JsVal
  | undef : JsVal
  | nullv : JsVal
  | num : Int → JsVal
deriving DecidableEq

/-- JS `String(v)`: a string is itself; an Error stringifies to
`name: message` (just `name` when the message is empty). -/
def jsString : JsVal → String
  | .str s => s
  | .errObj name msg => if msg = "" then name else name ++ ": " ++ msg
  | .undef => "undefined"
  | .nullv => "null"
  | .num n => toString n

/-- JS `v instanceof Error`. -/
def isErrorInstance : JsVal → Bool
  | .errObj _ _ => true
  | _ => false

/-- JS `error.message` for an Error (unused branch otherwise). -/
def errMessage : JsVal → String
  | .errObj _ m => m
  | _ => ""

/-! ## Page-embedded executor (`src/extension/content.ts`) -/

/-- The content script's module state: the lazily created `browserAgent`. -/
structure ContentState : Type where
  browserAgent : Option Unit

/-- `executeBTCPCommand` from `content.ts`. The external
`btcp-browser-agent` package's `launch()` and `execute(command)` are passed
in as oracles: each either throws a `JsVal` or returns. The whole body is
wrapped in try/catch, so the function always returns a `Response`; a thrown
value `e` becomes `{ id: command.id, success: false, error: String(e) }`. -/
def executeBTCPCommand (st : ContentState) (cmd : Command)
    (launchResult : Except JsVal Unit) (execResult : Except JsVal Response) :
    ContentState × Response :=
  match st.browserAgent with
  | none =>
    let st' : ContentState := { browserAgent := some () }
    match launchResult with
    | .error e => (st', { id := some cmd.id, success := false, data := none,
                          error := some (jsString e) })
    | .ok _ =>
      match execResult with
      | .error e => (st', { id := some cmd.id, success := false, data := none,
                            error := some (jsString e) })
      | .ok r => (st', r)
  | some _ =>
    match execResult with
    | .error e => (st, { id := some cmd.id, success := false, data := none,
                         error := some (jsString e) })
    | .ok r => (st, r)

/-! ## Host router (`src/extension/background.ts`, `handleMessage`) -/

/-- The cross-context message for the `btcp:*` branch: its type, the wrapped
command, and the optional explicit `payload.tabId`. -/
structure BtcpMessage : Type where
  msgType : String
  command : Command
  tabId : Option Nat

/-- The router's environment: the active tab resolved by
`chrome.tabs.query({active: true, currentWindow: true})` at dispatch time,
and `chrome.tabs.sendMessage`, which either resolves to the content
script's `Response` or rejects. -/
structure RouterEnv : Type where
  activeTabId : Option Nat
  sendMessage : Nat → BtcpMessage → Except JsVal Response

/-- The `btcp:*` relay branch of `handleMessage` in `background.ts`: resolve
the target tab (explicit `payload.tabId`, else the active tab); with no tab,
return `{ success: false, error: 'No active tab found' }`; a rejected
`sendMessage` is caught and becomes `{ success: false, error: e.message }`
(or `'Content script not available'` for non-Error rejections). The other
(non-btcp) branches of `handleMessage` are outside the claims' scope. -/
def handleMessageBtcp (env : RouterEnv) (msg : BtcpMessage) : Response :=
  let targetTabId := match msg.tabId with
    | some t => some t
    | none => env.activeTabId
  match targetTabId with
  | none => { id := none, success := false, data := none,
              error := some "No active tab found" }
  | some t =>
    match env.sendMessage t msg with
    | .ok r => r
    | .error e =>
      { id := none, success := false, data := none,
        error := some (if isErrorInstance e then errMessage e
                       else "Content script not available") }

/-! ## Lazy agent session (`index.ts` `getAgent`, `part_000` `browser_close`) -/

/-- The plugin closure's session state: the `agent` handle and the
`agentLaunched` flag. -/
structure AgentSession : Type where
  agent : Option Unit
  launched : Bool

/-- State at plugin creation: `agent = providedAgent ?? null`,
`agentLaunched = false`. -/
def initSession (providedAgent : Option Unit) : AgentSession :=
  { agent := providedAgent, launched := false }

/-- One `getAgent()` call: constructs the `BrowserAgent` if absent, calls
`launch()` only when the `launched` flag is unset, then sets it. Returns the
new state, whether a construction happened, and whether `launch` was
invoked. -/
def getAgentStep (s : AgentSession) : AgentSession × Bool × Bool :=
  (⟨some (), true⟩, s.agent.isNone, !s.launched)

/-- The `browser_close` tool of the `part_000` draft: if an agent exists,
close it and clear the `launched` flag (the handle itself is kept). -/
def closeStep (s : AgentSession) : AgentSession :=
  if s.agent.isSome then { s with launched := false } else s

/-- `n` consecutive `getAgent()` calls; returns the final state, the number
of constructions, and the number of `launch()` invocations. -/
def runGetAgents : AgentSession → Nat → AgentSession × Nat × Nat
  | s, 0 => (s, 0, 0)
  | s, n + 1 =>
    let r := getAgentStep s
    let rest := runGetAgents r.1 n
    (rest.1, (if r.2.1 then 1 else 0) + rest.2.1, (if r.2.2 then 1 else 0) + rest.2.2)

/-! ### Lemmas on `objSet` / `objGet` / `objHas` -/

theorem objGet_objSet_self (k : String) (v : Json) :
    ∀ fs : List (String × Json), objGet (objSet fs k v) k = some v
  | [] => by simp [objSet, objGet]
  | p :: fs => by
    by_cases hp : (p.1 == k) = true
    · simp [objSet, objGet, hp]
    · simp [objSet, objGet, hp, objGet_objSet_self k v fs]

theorem objGet_objSet_ne (k k' : String) (v : Json) (hkk : k' ≠ k) :
    ∀ fs : List (String × Json), objGet (objSet fs k v) k' = objGet fs k'
  | [] => by simp [objSet, objGet, Ne.symm hkk]
  | p :: fs => by
    by_cases hp : (p.1 == k) = true
    · have hp' : p.1 = k := by simpa using hp
      simp [objSet, objGet, hp, hp', Ne.symm hkk]
    · simp [objSet, objGet, hp, objGet_objSet_ne k k' v hkk fs]

theorem objHas_objSet_ne (k k' : String) (v : Json) (hkk : k' ≠ k) :
    ∀ fs : List (String × Json), objHas (objSet fs k v) k' = objHas fs k'
  | [] => by simp [objSet, objHas, Ne.symm hkk]
  | p :: fs => by
    by_cases hp : (p.1 == k) = true
    · have hp' : p.1 = k := by simpa using hp
      simp [objSet, objHas, hp, hp', Ne.symm hkk]
    · simp [objSet, objHas, hp, objHas_objSet_ne k k' v hkk fs]

/-! ## Claim C1 — snapshot size bound -/

/-- C1: the claim says an over-`maxSnapshotSize` snapshot comes back with a
serialized size within the bound (truncated) and `_truncated: true`. The
code only flags: at snapshot `("a". .str "hello")` with `maxSnapshotSize`
3, the input serializes to 13 > 3 characters, the result carries
`_truncated: true` — and still serializes to 74 > 3 characters, because
the full payload is returned with two extra fields, contradicting the
code's own `_message` ("Snapshot truncated to 3 chars"). -/
theorem snapshot_flagged_but_not_truncated :
    (serialize (.obj [("a", Json.str "hello")])).length > 3
    ∧ objGet (browser_snapshot_result [("a", Json.str "hello")] 3) "_truncated"
        = some (.bool true)
    ∧ (serialize (.obj (browser_snapshot_result [("a", Json.str "hello")] 3))).length > 3 :=
  ⟨by decide, rfl, by decide⟩

/-! ## Claim C2 — truncation flag is strict greater-than -/

/-- C2: a snapshot whose serialization is exactly `maxSnapshotSize + 1`
characters long comes back with `_truncated: true`; one of exactly
`maxSnapshotSize` characters comes back unflagged (given that the agent's
snapshot does not itself carry a `_truncated` key): the flag condition is
`snapshotStr.length > maxSnapshotSize`, strict. -/
theorem snapshot_truncation_flag_is_strict (s : List (String × Json)) (m : Nat) :
    ((serialize (.obj s)).length = m + 1 →
      objGet (browser_snapshot_result s m) "_truncated" = some (.bool true))
    ∧ ((serialize (.obj s)).length = m → objHas s "_truncated" = false →
      objHas (browser_snapshot_result s m) "_truncated" = false) := by
  constructor
  · intro h
    rw [browser_snapshot_result]
    simp only [h, gt_iff_lt, Nat.lt_succ_self, if_pos]
    rw [objGet_objSet_ne "_message" "_truncated" _ (by decide)]
    exact objGet_objSet_self _ _ s
  · intro h hs
    rw [browser_snapshot_result]
    simp [h, hs]

/-- C2 witness: the empty snapshot serializes to 2 characters; with
`maxSnapshotSize = 1` it is flagged, with `maxSnapshotSize = 2` it is not. -/
theorem snapshot_truncation_flag_is_strict_witness :
    objGet (browser_snapshot_result [] 1) "_truncated" = some (.bool true)
    ∧ objHas (browser_snapshot_result [] 2) "_truncated" = false :=
  ⟨(snapshot_truncation_flag_is_strict [] 1).1 rfl,
   (snapshot_truncation_flag_is_strict [] 2).2 rfl rfl⟩

/-! ## Claim C3 — Response.id equals Command.id -/

/-- C3 counterexample: the router's unreachable-context failure Response is
built without an `id` property, so for the Command with id "cmd-1" the
Response's id is not "cmd-1", contrary to the claim that every Response —
including router-produced ones — carries the originating Command's id. -/
theorem router_failure_has_no_id :
    (handleMessageBtcp
        { activeTabId := none, sendMessage := fun _ _ => .error .undef }
        { msgType := "btcp:execute", command := ⟨"cmd-1", "click", []⟩, tabId := none }).id
      ≠ some "cmd-1" := by decide

/-- C3 amended: Responses built by the Executor's catch path carry
`id = command.id` (whether `execute` or `launch` threw); the success path
returns the agent's Response unchanged; but the router's
unreachable-context failure Response carries no id at all. -/
theorem response_id_correlation (st : ContentState) (cmd : Command)
    (er : Except JsVal Response) (e : JsVal) (r : Response)
    (env : RouterEnv) (msg : BtcpMessage) :
    ((executeBTCPCommand st cmd (.ok ()) (.error e)).2.id = some cmd.id)
    ∧ (st.browserAgent = none →
        (executeBTCPCommand st cmd (.error e) er).2.id = some cmd.id)
    ∧ ((executeBTCPCommand st cmd (.ok ()) (.ok r)).2 = r)
    ∧ (msg.tabId = none → env.activeTabId = none → (handleMessageBtcp env msg).id = none) := by
  obtain ⟨ba⟩ := st
  refine ⟨?_, ?_, ?_, ?_⟩
  · cases ba <;> rfl
  · cases ba with
    | none => exact fun _ => rfl
    | some a => exact fun h => nomatch h
  · cases ba <;> rfl
  · intro h1 h2
    rw [handleMessageBtcp]
    simp [h1, h2]

/-- C3 amended witness: id preserved on a concrete throwing execution, and
absent on a concrete unreachable dispatch. -/
theorem response_id_correlation_witness :
    ((executeBTCPCommand ⟨some ()⟩ ⟨"cmd-3", "click", []⟩ (.ok ())
        (.error (.str "gone"))).2.id = some "cmd-3")
    ∧ ((handleMessageBtcp { activeTabId := none, sendMessage := fun _ _ => .error .undef }
          { msgType := "btcp:execute", command := ⟨"cmd-3", "click", []⟩, tabId := none }).id
        = none) :=
  ⟨(response_id_correlation ⟨some ()⟩ ⟨"cmd-3", "click", []⟩ (.ok ⟨none, true, none, none⟩)
      (.str "gone") ⟨none, true, none, none⟩
      { activeTabId := none, sendMessage := fun _ _ => .error .undef }
      { msgType := "btcp:execute", command := ⟨"cmd-3", "click", []⟩, tabId := none }).1,
   (response_id_correlation ⟨some ()⟩ ⟨"cmd-3", "click", []⟩ (.ok ⟨none, true, none, none⟩)
      (.str "gone") ⟨none, true, none, none⟩
      { activeTabId := none, sendMessage := fun _ _ => .error .undef }
      { msgType := "btcp:execute", command := ⟨"cmd-3", "click", []⟩, tabId := none }).2.2.2
      rfl rfl⟩

/-! ## Claim C4 — the Executor never throws -/

/-- C4: `executeBTCPCommand` is total (it returns a `Response` for every
oracle behavior), and whenever `execute` — or `launch` on the lazy-init
path — throws any value `e`, it returns
`{ id: command.id, success: false, error: String(e) }`. -/
theorem executor_catches_all_throws (st : ContentState) (cmd : Command)
    (er : Except JsVal Response) (e : JsVal) :
    ((executeBTCPCommand st cmd (.ok ()) (.error e)).2
       = { id := some cmd.id, success := false, data := none, error := some (jsString e) })
    ∧ (st.browserAgent = none →
       (executeBTCPCommand st cmd (.error e) er).2
         = { id := some cmd.id, success := false, data := none, error := some (jsString e) }) := by
  obtain ⟨ba⟩ := st
  cases ba with
  | none => exact ⟨rfl, fun _ => rfl⟩
  | some a => exact ⟨rfl, fun h => nomatch h⟩

/-- C4 witness: a thrown string and a throwing `launch` both become
formatted failure Responses. -/
theorem executor_catches_all_throws_witness :
    ((executeBTCPCommand ⟨none⟩ ⟨"cmd-4", "click", []⟩ (.ok ()) (.error (.str "boom"))).2
       = { id := some "cmd-4", success := false, data := none, error := some "boom" })
    ∧ ((executeBTCPCommand ⟨none⟩ ⟨"cmd-4", "click", []⟩ (.error (.errObj "Error" "launch failed"))
          (.ok ⟨some "cmd-4", true, none, none⟩)).2
       = { id := some "cmd-4", success := false, data := none,
           error := some "Error: launch failed" }) :=
  ⟨(executor_catches_all_throws ⟨none⟩ ⟨"cmd-4", "click", []⟩
      (.ok ⟨some "cmd-4", true, none, none⟩) (.str "boom")).1,
   (executor_catches_all_throws ⟨none⟩ ⟨"cmd-4", "click", []⟩
      (.ok ⟨some "cmd-4", true, none, none⟩) (.errObj "Error" "launch failed")).2 rfl⟩

/-! ## Claim C5 — preset monotonicity -/

/-- C5: every tool name in the `minimal` preset is in `standard`, and every
name in `standard` is in `full`. -/
theorem tool_presets_monotone :
    (∀ t ∈ TOOL_PRESETS_minimal, t ∈ TOOL_PRESETS_standard)
    ∧ (∀ t ∈ TOOL_PRESETS_standard, t ∈ TOOL_PRESETS_full) := by
  decide

/-- C5 witness: concrete memberships through the theorem. -/
theorem tool_presets_monotone_witness :
    "browser_snapshot" ∈ TOOL_PRESETS_standard ∧ "browser_click" ∈ TOOL_PRESETS_full :=
  ⟨tool_presets_monotone.1 "browser_snapshot" (by decide),
   tool_presets_monotone.2 "browser_click" (by decide)⟩

/-! ## Claim C6 — tool selection is total, falls back to `standard` -/

/-- C6: `filterTools` always returns a sub-collection of its input; a preset
name other than minimal/standard/full selects exactly what `standard`
selects; an explicit list selects exactly the input entries whose name the
list contains (unknown names select nothing). -/
theorem filterTools_total_with_fallback {α : Type} (allTools : List (String × α)) :
    (∀ (sel : ToolSelector) (p : String × α), p ∈ filterTools sel allTools → p ∈ allTools)
    ∧ (∀ name : String, name ≠ "minimal" → name ≠ "standard" → name ≠ "full" →
        filterTools (.preset name) allTools = filterTools (.preset "standard") allTools)
    ∧ (∀ (names : List String) (p : String × α),
        p ∈ filterTools (.list names) allTools ↔ p ∈ allTools ∧ names.contains p.1 = true) := by
  refine ⟨?_, ?_, ?_⟩
  · intro sel p h
    cases sel with
    | list names => exact (List.mem_filter.mp h).1
    | preset name => exact (List.mem_filter.mp h).1
  · intro name h1 h2 h3
    have hl : TOOL_PRESETS name = none := by simp [TOOL_PRESETS, h1, h2, h3]
    show allTools.filter _ = allTools.filter _
    rw [hl]
    rfl
  · intro names p
    constructor
    · intro h
      exact ⟨(List.mem_filter.mp h).1, (List.mem_filter.mp h).2⟩
    · intro h
      exact List.mem_filter.mpr ⟨h.1, h.2⟩

/-- C6 witness: sub-map property, fallback of the unknown preset "bogus",
and explicit-list selection, at concrete tool maps. -/
theorem filterTools_total_witness :
    (("browser_url", ToolVal.btcp "browser_url")
        ∈ ([("browser_url", ToolVal.btcp "browser_url"), ("other", ToolVal.ext 0)]
            : List (String × ToolVal)))
    ∧ (filterTools (.preset "bogus")
          ([("browser_url", ToolVal.btcp "browser_url")] : List (String × ToolVal))
        = filterTools (.preset "standard") [("browser_url", ToolVal.btcp "browser_url")])
    ∧ (("browser_url", ToolVal.btcp "browser_url")
        ∈ filterTools (.list ["browser_url"])
            ([("browser_url", ToolVal.btcp "browser_url")] : List (String × ToolVal))) :=
  ⟨(filterTools_total_with_fallback _).1 (.preset "minimal")
      ("browser_url", ToolVal.btcp "browser_url") (by decide),
   (filterTools_total_with_fallback _).2.1 "bogus" (by decide) (by decide) (by decide),
   ((filterTools_total_with_fallback _).2.2 ["browser_url"]
      ("browser_url", ToolVal.btcp "browser_url")).mpr ⟨by decide, by decide⟩⟩

/-! ## Claim C7 — transformParams merges tools -/

theorem lookupVal_eq_some_of_mem_nodup {α : Type} (k : String) :
    ∀ (l : List (String × α)) (q : String × α),
      (l.map Prod.fst).Nodup → q ∈ l → q.1 = k → lookupVal l k = some q.2
  | [], q, _, hq, _ => absurd hq (List.not_mem_nil q)
  | r :: l, q, hnd, hq, hqk => by
    rw [List.map_cons, List.nodup_cons] at hnd
    rcases List.mem_cons.mp hq with rfl | hq'
    · simp [lookupVal, hqk]
    · have hrk : (r.1 == k) = false := by
        apply beq_eq_false_iff_ne.mpr
        intro hc
        exact hnd.1 (hc ▸ hqk ▸ List.mem_map.mpr ⟨q, hq', rfl⟩)
      simp only [lookupVal, hrk, Bool.false_eq_true, if_neg]
      exact lookupVal_eq_some_of_mem_nodup k l q hnd.2 hq' hqk

theorem spreadMerge_preserves_base {α : Type} (base extra : List (String × α))
    (p : String × α) (hp : p ∈ base) :
    ∃ v, (p.1, v) ∈ spreadMerge base extra
      ∧ (lookupVal extra p.1 = none → v = p.2) := by
  have hmem : (match lookupVal extra p.1 with
      | some v => (p.1, v)
      | none => p) ∈ spreadMerge base extra :=
    List.mem_append_left _ (List.mem_map.mpr ⟨p, hp, rfl⟩)
  cases hl : lookupVal extra p.1 with
  | some v =>
    refine ⟨v, ?_, fun hc => nomatch hc⟩
    rw [hl] at hmem
    exact hmem
  | none =>
    refine ⟨p.2, ?_, fun _ => rfl⟩
    rw [hl] at hmem
    simpa using hmem

theorem spreadMerge_contains_extra {α : Type} (base extra : List (String × α))
    (hnd : (extra.map Prod.fst).Nodup) (q : String × α) (hq : q ∈ extra) :
    q ∈ spreadMerge base extra := by
  by_cases hb : base.any (fun p => p.1 == q.1) = true
  · obtain ⟨p, hp, hpq⟩ := List.any_eq_true.mp hb
    have hpq' : p.1 = q.1 := by simpa using hpq
    have hl : lookupVal extra p.1 = some q.2 :=
      lookupVal_eq_some_of_mem_nodup p.1 extra q hnd hq hpq'.symm
    apply List.mem_append_left
    apply List.mem_map.mpr
    refine ⟨p, hp, ?_⟩
    rw [hl, hpq']
  · apply List.mem_append_right
    apply List.mem_filter.mpr
    exact ⟨hq, by simp [hb]⟩

theorem filterTools_keys_nodup (sel : ToolSelector) :
    ((filterTools sel createBrowserTools).map Prod.fst).Nodup := by
  have hbase : (createBrowserTools.map Prod.fst).Nodup := by
    have he : createBrowserTools.map Prod.fst = browserToolNames := by rfl
    rw [he]
    decide
  cases sel with
  | list names => exact hbase.sublist ((List.filter_sublist _).map Prod.fst)
  | preset name => exact hbase.sublist ((List.filter_sublist _).map Prod.fst)

/-- C7: with the plugin enabled, `transformParams` merges rather than
replaces: every key of the incoming `tools` record survives (with its
original value when its name is not among the selected browser tools), and
every selected browser tool is present in the outgoing record. -/
theorem transformParams_merges_tools (cfg : PluginConfig) (params : PluginParams)
    (hen : cfg.enabled = true) :
    (∀ p ∈ params.tools, ∃ v,
        (p.1, v) ∈ (transformParams cfg params).tools
        ∧ (lookupVal (filterTools cfg.toolset createBrowserTools) p.1 = none → v = p.2))
    ∧ (∀ q ∈ filterTools cfg.toolset createBrowserTools,
        q ∈ (transformParams cfg params).tools) := by
  have htools : (transformParams cfg params).tools
      = spreadMerge params.tools (filterTools cfg.toolset createBrowserTools) := by
    rw [transformParams]
    simp [hen]
  constructor
  · intro p hp
    rw [htools]
    exact spreadMerge_preserves_base _ _ p hp
  · intro q hq
    rw [htools]
    exact spreadMerge_contains_extra _ _ (filterTools_keys_nodup cfg.toolset) q hq

/-- C7 witness: with the default configuration, a caller-supplied tool
`my_tool` survives with its value, and `browser_snapshot` is merged in. -/
theorem transformParams_merges_tools_witness :
    (∃ v, ("my_tool", v)
        ∈ (transformParams DEFAULT_CONFIG
            { tools := [("my_tool", ToolVal.ext 0)], system := none }).tools
      ∧ (lookupVal (filterTools DEFAULT_CONFIG.toolset createBrowserTools) "my_tool" = none
          → v = ToolVal.ext 0))
    ∧ ("browser_snapshot", ToolVal.btcp "browser_snapshot")
        ∈ (transformParams DEFAULT_CONFIG
            { tools := [("my_tool", ToolVal.ext 0)], system := none }).tools :=
  ⟨(transformParams_merges_tools DEFAULT_CONFIG
      { tools := [("my_tool", ToolVal.ext 0)], system := none } rfl).1
      ("my_tool", ToolVal.ext 0) (by decide),
   (transformParams_merges_tools DEFAULT_CONFIG
      { tools := [("my_tool", ToolVal.ext 0)], system := none } rfl).2
      ("browser_snapshot", ToolVal.btcp "browser_snapshot") (by decide)⟩

/-! ## Claim C8 — unreachable context resolves, error string -/

/-- C8 counterexample: with no resolvable tab the router resolves with
error "No active tab found", not the claimed "context unavailable". -/
theorem router_unreachable_error_string :
    (handleMessageBtcp
        { activeTabId := none, sendMessage := fun _ _ => .error .undef }
        { msgType := "btcp:execute", command := ⟨"cmd-8", "click", []⟩, tabId := none }).error
      ≠ some "context unavailable"
    ∧ (handleMessageBtcp
        { activeTabId := none, sendMessage := fun _ _ => .error .undef }
        { msgType := "btcp:execute", command := ⟨"cmd-8", "click", []⟩, tabId := none }).error
      = some "No active tab found" := by
  constructor
  · decide
  · rfl

/-- C8 amended: when the destination context is unreachable the router
resolves (it does not hang or reject) with
`{ success: false, error: <string> }` — the string being
"No active tab found" when no tab resolves, and the rejection's
`.message` (or "Content script not available" for non-Error rejections)
when `sendMessage` fails. -/
theorem router_unreachable_resolves_failure (env : RouterEnv) (msg : BtcpMessage) :
    (msg.tabId = none → env.activeTabId = none →
      handleMessageBtcp env msg
        = { id := none, success := false, data := none, error := some "No active tab found" })
    ∧ (∀ (t : Nat) (e : JsVal), msg.tabId = some t → env.sendMessage t msg = .error e →
      handleMessageBtcp env msg
        = { id := none, success := false, data := none,
            error := some (if isErrorInstance e then errMessage e
                           else "Content script not available") }) := by
  constructor
  · intro h1 h2
    rw [handleMessageBtcp]
    simp [h1, h2]
  · intro t e h1 h2
    rw [handleMessageBtcp]
    simp [h1, h2]

/-- C8 amended witness: the two unreachable cases at concrete inputs. -/
theorem router_unreachable_resolves_failure_witness :
    (handleMessageBtcp { activeTabId := none, sendMessage := fun _ _ => .error .undef }
        { msgType := "btcp:execute", command := ⟨"cmd-8b", "click", []⟩, tabId := none }
      = { id := none, success := false, data := none, error := some "No active tab found" })
    ∧ (handleMessageBtcp { activeTabId := none, sendMessage := fun _ _ => .error .undef }
        { msgType := "btcp:execute", command := ⟨"cmd-8b", "click", []⟩, tabId := some 7 }
      = { id := none, success := false, data := none,
          error := some "Content script not available" }) :=
  ⟨(router_unreachable_resolves_failure
      { activeTabId := none, sendMessage := fun _ _ => .error .undef }
      { msgType := "btcp:execute", command := ⟨"cmd-8b", "click", []⟩, tabId := none }).1 rfl rfl,
   (router_unreachable_resolves_failure
      { activeTabId := none, sendMessage := fun _ _ => .error .undef }
      { msgType := "btcp:execute", command := ⟨"cmd-8b", "click", []⟩, tabId := some 7 }).2
      7 .undef rfl rfl⟩

/-! ## Claim C9 — failure Responses carry a non-empty error -/

/-- C9 counterexample: a thrown empty string passes through
`String(error)` unchanged, producing a `success: false` Response whose
error is the empty string — the claim asserts non-emptiness precisely
including this case. -/
theorem failure_error_can_be_empty :
    (executeBTCPCommand ⟨some ()⟩ ⟨"cmd-9", "click", []⟩ (.ok ()) (.error (.str ""))).2.success
      = false
    ∧ (executeBTCPCommand ⟨some ()⟩ ⟨"cmd-9", "click", []⟩ (.ok ()) (.error (.str ""))).2.error
      = some "" :=
  ⟨rfl, rfl⟩

/-- C9 amended: every failure Response carries an error string — the
Executor's is `String(thrown)`, non-empty whenever the thrown value's
string conversion is non-empty (Error objects always are, a thrown empty
string is not), and the router's no-tab failure carries the non-empty
"No active tab found". -/
theorem failure_error_present_nonempty_unless_empty_conversion
    (st : ContentState) (cmd : Command) (er : Except JsVal Response) (e : JsVal)
    (env : RouterEnv) (msg : BtcpMessage) :
    ((executeBTCPCommand st cmd (.ok ()) (.error e)).2.error = some (jsString e))
    ∧ (st.browserAgent = none →
        (executeBTCPCommand st cmd (.error e) er).2.error = some (jsString e))
    ∧ (jsString e ≠ "" →
        (executeBTCPCommand st cmd (.ok ()) (.error e)).2.error ≠ some "")
    ∧ (msg.tabId = none → env.activeTabId = none →
        (handleMessageBtcp env msg).error = some "No active tab found"
        ∧ "No active tab found" ≠ "") := by
  obtain ⟨ba⟩ := st
  refine ⟨?_, ?_, ?_, ?_⟩
  · cases ba <;> rfl
  · cases ba with
    | none => exact fun _ => rfl
    | some a => exact fun h => nomatch h
  · intro hne
    cases ba with
    | none =>
      intro hc
      exact hne (by simpa [executeBTCPCommand] using hc)
    | some a =>
      intro hc
      exact hne (by simpa [executeBTCPCommand] using hc)
  · intro h1 h2
    rw [handleMessageBtcp]
    simp [h1, h2]

/-- C9 amended witness: a thrown Error gives the non-empty error
"TypeError: x is null". -/
theorem failure_error_present_witness :
    ((executeBTCPCommand ⟨some ()⟩ ⟨"cmd-9b", "click", []⟩ (.ok ())
        (.error (.errObj "TypeError" "x is null"))).2.error = some "TypeError: x is null")
    ∧ ((executeBTCPCommand ⟨some ()⟩ ⟨"cmd-9b", "click", []⟩ (.ok ())
        (.error (.errObj "TypeError" "x is null"))).2.error ≠ some "") :=
  ⟨(failure_error_present_nonempty_unless_empty_conversion ⟨some ()⟩ ⟨"cmd-9b", "click", []⟩
      (.ok ⟨none, true, none, none⟩) (.errObj "TypeError" "x is null")
      { activeTabId := none, sendMessage := fun _ _ => .error .undef }
      { msgType := "btcp:execute", command := ⟨"cmd-9b", "click", []⟩, tabId := none }).1,
   (failure_error_present_nonempty_unless_empty_conversion ⟨some ()⟩ ⟨"cmd-9b", "click", []⟩
      (.ok ⟨none, true, none, none⟩) (.errObj "TypeError" "x is null")
      { activeTabId := none, sendMessage := fun _ _ => .error .undef }
      { msgType := "btcp:execute", command := ⟨"cmd-9b", "click", []⟩, tabId := none }).2.2.1
      (by decide)⟩

/-! ## Claim C10 — lazy construction, launch at most once -/

theorem runGetAgents_ready (n : Nat) :
    runGetAgents ⟨some (), true⟩ n = (⟨some (), true⟩, 0, 0) := by
  induction n with
  | zero => rfl
  | succ n ih => simp [runGetAgents, getAgentStep, ih]

/-- C10: with no agent provided, plugin creation constructs nothing
(`agent = null`); a `getAgent()` call on a state whose `launched` flag is
set never invokes `launch`; any sequence of `getAgent()` calls constructs
at most once and launches at most once; and the explicit close of the
`part_000` draft resets the `launched` flag. -/
theorem agent_lazy_launch_once :
    (initSession none).agent = none
    ∧ (∀ a : Option Unit, (getAgentStep { agent := a, launched := true }).2.2 = false)
    ∧ (∀ (s : AgentSession) (n : Nat),
        (runGetAgents s n).2.1 ≤ 1 ∧ (runGetAgents s n).2.2 ≤ 1)
    ∧ (∀ b : Bool, (closeStep { agent := some (), launched := b }).launched = false) := by
  refine ⟨rfl, fun a => rfl, fun s n => ?_, fun b => rfl⟩
  cases n with
  | zero => exact ⟨Nat.zero_le _, Nat.zero_le _⟩
  | succ n =>
    simp only [runGetAgents, getAgentStep, runGetAgents_ready]
    constructor <;> split <;> simp

end BTCP
